import Mathlib

/-! HC164 shift-register reference model and its simulation drivers.

A shallow embedding of `sim/include/hc164.cpp` (the software model of the
74HC164 serial-in/parallel-out shift register) and of the `update_simulation`,
`wait_clocks` and `wait_hc164_reset` loops of the three Verilator test benches,
followed by the properties of the specification that are proved on them.

C `unsigned` values are natural numbers; the one arithmetic result that is
stored (`ds + (output_signals >> 1)`) is reduced modulo `2^32`.
-/

namespace Hc164Model

/-! ## The reference model (`sim/include/hc164.cpp`) -/

/-- Modelled from the spec: the class declaration `hc164.h` is not among the
sources. The model has the two fields that `hc164.cpp` assigns,
`output_signals` (the spec's `register_value`) and `previous_cp` (the spec's
`previous_clock_level`); they are held as naturals, read and written with the
arithmetic of C `unsigned`. -/
structure Hc164 where
  output_signals : Nat
  previous_cp : Nat
  deriving DecidableEq, Repr

/-- The four pins sampled at one simulated instant, in the argument order of
`Hc164::update(cp, dsa, dsb, mr)`. -/
structure Pins where
  cp : Nat
  dsa : Nat
  dsb : Nat
  mr : Nat
  deriving DecidableEq, Repr

/-- Method `Hc164::init_hc164()`: `output_signals = 0; previous_cp = 0;`. -/
def init_hc164 (_self : Hc164) : Hc164 :=
  { output_signals := 0, previous_cp := 0 }

/-- Constructor `Hc164::Hc164()`: the constructor only runs `init_hc164()`. -/
def Hc164.new : Hc164 :=
  init_hc164 { output_signals := 0, previous_cp := 0 }

/-- Method `Hc164::update(cp, dsa, dsb, mr)`.

```
if (mr == 0) { init_hc164(); }
else if (previous_cp == 0 && cp == 1) {
    unsigned ds = ((dsa & 1) & (dsb & 1)) << 7;
    output_signals = ds + (output_signals >> 1);
}
previous_cp = cp;
```
-/
def update (self : Hc164) (cp dsa dsb mr : Nat) : Hc164 :=
  let s1 : Hc164 :=
    if mr = 0 then
      init_hc164 self
    else if self.previous_cp = 0 ∧ cp = 1 then
      let ds := (((dsa &&& 1) &&& (dsb &&& 1)) <<< 7) % 4294967296
      { self with output_signals := (ds + (self.output_signals >>> 1)) % 4294967296 }
    else
      self
  { s1 with previous_cp := cp }

/-- One call of `update` with a sampled pin set. -/
def step (s : Hc164) (p : Pins) : Hc164 :=
  update s p.cp p.dsa p.dsb p.mr

/-- A finite sequence of `update` calls, first element first. -/
def run (s : Hc164) (l : List Pins) : Hc164 :=
  l.foldl step s

/-- The serial input bit of one call: `(dsa & 1) & (dsb & 1)`. -/
def serial_bit (dsa dsb : Nat) : Nat :=
  (dsa &&& 1) &&& (dsb &&& 1)

/-! ### Pin sequences of the specification's scenarios -/

/-- One rising-edge cycle with clear released (`mr = 1`): an `update` with the
clock low carrying the data lines `lo`, then an `update` with the clock high
carrying the data lines `hi`. -/
def rising_edge_cycle (lo hi : Nat × Nat) : List Pins :=
  [{ cp := 0, dsa := lo.1, dsb := lo.2, mr := 1 },
   { cp := 1, dsa := hi.1, dsb := hi.2, mr := 1 }]

/-- Eight consecutive rising-edge cycles, cycle `0` first. -/
def eight_cycles (lo hi : Fin 8 → Nat × Nat) : List Pins :=
  rising_edge_cycle (lo 0) (hi 0) ++ rising_edge_cycle (lo 1) (hi 1) ++
  rising_edge_cycle (lo 2) (hi 2) ++ rising_edge_cycle (lo 3) (hi 3) ++
  rising_edge_cycle (lo 4) (hi 4) ++ rising_edge_cycle (lo 5) (hi 5) ++
  rising_edge_cycle (lo 6) (hi 6) ++ rising_edge_cycle (lo 7) (hi 7)

/-- Whether a call of `update` with clock level `cp` on state `s` is a rising
edge: the test `previous_cp == 0 && cp == 1` of `update`. -/
def is_rising_edge (s : Hc164) (cp : Nat) : Bool :=
  s.previous_cp == 0 && cp == 1

/-- No call of the sequence `l`, run from `s`, is a rising edge. -/
def no_rising_edge : Hc164 → List Pins → Bool
  | _, [] => true
  | s, p :: ps => !is_rising_edge s p.cp && no_rising_edge (step s p) ps

/-- Function `extract_bit(source, bit_number)` of the display test benches:
`(bool)((source >> bit_number) & 1)`. -/
def extract_bit (source bit_number : Nat) : Bool :=
  ((source >>> bit_number) &&& 1) != 0

/-- The pin sequence that clocks the given bits in, one rising-edge cycle per
bit, both data lines carrying the bit (the benches wire one `ds` pin to both). -/
def inject_bits (bits : List Bool) : List Pins :=
  bits.flatMap fun b => rising_edge_cycle (b.toNat, b.toNat) (b.toNat, b.toNat)

/-- The bits of a byte from bit 7 down to bit 0. -/
def bits_msb_first (byte : Nat) : List Bool :=
  [7, 6, 5, 4, 3, 2, 1, 0].map (extract_bit byte)

/-- The bits of a byte from bit 0 up to bit 7. -/
def bits_lsb_first (byte : Nat) : List Bool :=
  [0, 1, 2, 3, 4, 5, 6, 7].map (extract_bit byte)

/-! ## The Wishbone bench (`sim/wb_hc164_tb/wb_hc164_tb.cpp`) -/

namespace wb_hc164_tb

/-- The simulated design, a parameter of the bench: `testb.h` and the Verilator
class `Vwb_hc164` are not among the sources, so the design is any state type
`HW` with the one operation the bench calls on it, `tick` (evaluate one clock
cycle), and the three output pins the bench reads. -/
structure Vwb_hc164 (HW : Type) where
  tick : HW → HW
  o_shifter_cp : HW → Nat
  o_shifter_ds : HW → Nat
  o_shifter_mr_n : HW → Nat

/-- What the bench owns: the hardware test bench `tb` and the model
`device_sim`. -/
structure Bench (HW : Type) where
  tb : HW
  device_sim : Hc164

/-- Function `update_simulation(tb, device_sim)`:

```
device_sim->update(o_shifter_cp, o_shifter_ds, o_shifter_ds, o_shifter_mr_n);
tb->tick();
```
-/
def update_simulation {HW : Type} (core : Vwb_hc164 HW) (st : Bench HW) : Bench HW :=
  let device_sim := update st.device_sim (core.o_shifter_cp st.tb)
    (core.o_shifter_ds st.tb) (core.o_shifter_ds st.tb) (core.o_shifter_mr_n st.tb)
  { tb := core.tick st.tb, device_sim := device_sim }

/-- Function `wait_clocks(tb, device_sim, clocks)`: `clocks` calls of
`update_simulation`. -/
def wait_clocks {HW : Type} (core : Vwb_hc164 HW) (st : Bench HW) : Nat → Bench HW
  | 0 => st
  | clocks + 1 => wait_clocks core (update_simulation core st) clocks

/-- The comparison of `send_data`: the run goes on when
`sent_data != device_sim->output_signals` is false, and exits otherwise. -/
def send_data_accepts (sent_data : Nat) (device_sim : Hc164) : Bool :=
  !(sent_data != device_sim.output_signals)

end wb_hc164_tb

/-! ## What the two display benches share -/

/-- Function `segment_name(bit)`. -/
def segment_name (bit : Nat) : Char :=
  match bit with
  | 0 => 'p'
  | 1 => 'g'
  | 2 => 'f'
  | 3 => 'e'
  | 4 => 'd'
  | 5 => 'c'
  | 6 => 'b'
  | 7 => 'a'
  | _ => 'a'

/-- One line written by `print_led_display`: the active digit (`none` when the
`switch` leaves `segment_digit` unassigned) and the eight named segments, `a`
first. -/
structure Display where
  segment_digit : Option Nat
  segments : List (Char × Bool)
  deriving DecidableEq, Repr

/-- Function `print_led_display(shifter_a, shifter_b)` with `COMMON_ANODE` true: both
registers are complemented and masked to eight bits (`~x & 0xFF`), the digit
is decoded from register A and the segments are read from register B, bit 7
down to bit 0. The value is the line that is printed. -/
def print_led_display (shifter_a shifter_b : Hc164) : Display :=
  let shifter_a_output := (4294967295 - shifter_a.output_signals % 4294967296) &&& 0xFF
  let shifter_b_output := (4294967295 - shifter_b.output_signals % 4294967296) &&& 0xFF
  let segment_digit : Option Nat :=
    if shifter_a_output = 0x80 then some 3
    else if shifter_a_output = 0x40 then some 2
    else if shifter_a_output = 0x20 then some 1
    else if shifter_a_output = 0x10 then some 0
    else none
  { segment_digit := segment_digit,
    segments := [7, 6, 5, 4, 3, 2, 1, 0].map fun i =>
      (segment_name i, extract_bit shifter_b_output i) }

/-- What a display bench owns: the hardware test bench `tb`, the two models
and the lines printed so far. -/
structure LedBench (HW : Type) where
  tb : HW
  shifter_a : Hc164
  shifter_b : Hc164
  printed : List Display

/-- The simulated design, a parameter of the display benches: `testb.h` and the
Verilator classes `Vled_display_counter` and `Vled_display_controller` are not
among the sources, so the design is any state type `HW` with `tick` (evaluate
one clock cycle), the six shift-register pins and the `debug_update_leds`
indicator that the benches read. -/
structure LedCore (HW : Type) where
  tick : HW → HW
  o_shifter_a_cp : HW → Nat
  o_shifter_a_ds : HW → Nat
  o_shifter_a_mr_n : HW → Nat
  o_shifter_b_cp : HW → Nat
  o_shifter_b_ds : HW → Nat
  o_shifter_b_mr_n : HW → Nat
  debug_update_leds : HW → Nat

/-- The part of `update_simulation` that follows `tb->tick()` in both display
benches: the two `update` calls with the pins of `tb`, then the print when
`debug_update_leds == 1 && print_leds`. -/
def sample_and_print {HW : Type} (core : LedCore HW) (tb : HW) (st : LedBench HW)
    (print_leds : Bool) : LedBench HW :=
  let shifter_a := update st.shifter_a (core.o_shifter_a_cp tb)
    (core.o_shifter_a_ds tb) (core.o_shifter_a_ds tb) (core.o_shifter_a_mr_n tb)
  let shifter_b := update st.shifter_b (core.o_shifter_b_cp tb)
    (core.o_shifter_b_ds tb) (core.o_shifter_b_ds tb) (core.o_shifter_b_mr_n tb)
  { tb := tb, shifter_a := shifter_a, shifter_b := shifter_b,
    printed :=
      if core.debug_update_leds tb = 1 ∧ print_leds = true then
        st.printed ++ [print_led_display shifter_a shifter_b]
      else st.printed }

/-! ## The counter bench (`sim/led_display_counter_tb/led_display_counter_tb.cpp`) -/

namespace led_display_counter_tb

/-- Function `update_simulation(tb, shifter_a, shifter_b, print_leds)`: `tb->tick()`,
then the two `update` calls and the conditional print. -/
def update_simulation {HW : Type} (core : LedCore HW) (st : LedBench HW)
    (print_leds : Bool) : LedBench HW :=
  sample_and_print core (core.tick st.tb) st print_leds

/-- Function `wait_clocks(tb, shifter_a, shifter_b, clocks)`: `clocks` calls of
`update_simulation` with `print_leds = true`. -/
def wait_clocks {HW : Type} (core : LedCore HW) (st : LedBench HW) : Nat → LedBench HW
  | 0 => st
  | clocks + 1 => wait_clocks core (update_simulation core st true) clocks

/-- The state after `n` passes of the body of the loop of `wait_hc164_reset`
(`update_simulation` with `print_leds = false`). -/
def silent_cycles {HW : Type} (core : LedCore HW) (st : LedBench HW) : Nat → LedBench HW
  | 0 => st
  | n + 1 => silent_cycles core (update_simulation core st false) n

/-- Function `wait_hc164_reset(tb, shifter_a, shifter_b)`:
`while (debug_update_leds != 1) update_simulation(..., false);`.
The loop need not end, so `fuel` bounds the number of passes of its body;
`none` means the fuel ran out. -/
def wait_hc164_reset {HW : Type} (core : LedCore HW) :
    Nat → LedBench HW → Option (LedBench HW)
  | 0, st => if core.debug_update_leds st.tb ≠ 1 then none else some st
  | fuel + 1, st =>
    if core.debug_update_leds st.tb ≠ 1 then
      wait_hc164_reset core fuel (update_simulation core st false)
    else some st

/-- The number of states among the first `n + 1` seen by the loop of
`wait_hc164_reset` (the state on entry and the states after each of `n`
passes) in which `debug_update_leds` is 1. -/
def valid_indications {HW : Type} (core : LedCore HW) (st : LedBench HW) (n : Nat) : Nat :=
  ((List.range (n + 1)).filter fun k =>
    decide (core.debug_update_leds (silent_cycles core st k).tb = 1)).length

end led_display_counter_tb

/-! ## The controller bench
(`sim/led_display_controller_tb/led_display_controller_tb.cpp`) -/

namespace led_display_controller_tb

/-- The controller design, a parameter of the bench: besides the pins of
`LedCore` the bench writes the four digit inputs `i_display_D0` to
`i_display_D3` of the design before each tick. -/
structure Vled_display_controller (HW : Type) extends LedCore HW where
  set_display : HW → Nat → Nat → Nat → Nat → HW

/-- The four digit values passed along by every function of the bench. -/
structure Digits where
  digit0 : Nat
  digit1 : Nat
  digit2 : Nat
  digit3 : Nat

/-- Function `update_simulation(tb, shifter_a, shifter_b, digit0..digit3, print_leds)`:
the four digit inputs are written, then `tb->tick()`, then the two `update`
calls and the conditional print. -/
def update_simulation {HW : Type} (core : Vled_display_controller HW) (st : LedBench HW)
    (d : Digits) (print_leds : Bool) : LedBench HW :=
  sample_and_print core.toLedCore
    (core.tick (core.set_display st.tb d.digit0 d.digit1 d.digit2 d.digit3)) st print_leds

/-- Function `wait_clocks(tb, shifter_a, shifter_b, digit0..digit3, clocks)`. -/
def wait_clocks {HW : Type} (core : Vled_display_controller HW) (st : LedBench HW)
    (d : Digits) : Nat → LedBench HW
  | 0 => st
  | clocks + 1 => wait_clocks core (update_simulation core st d true) d clocks

/-- The state after `n` passes of the body of the loop of `wait_hc164_reset`. -/
def silent_cycles {HW : Type} (core : Vled_display_controller HW) (st : LedBench HW)
    (d : Digits) : Nat → LedBench HW
  | 0 => st
  | n + 1 => silent_cycles core (update_simulation core st d false) d n

/-- Function `wait_hc164_reset(tb, shifter_a, shifter_b, digit0..digit3)`:
`while (debug_update_leds != 1) update_simulation(..., false);`, with `fuel`
bounding the number of passes of the body. -/
def wait_hc164_reset {HW : Type} (core : Vled_display_controller HW) (d : Digits) :
    Nat → LedBench HW → Option (LedBench HW)
  | 0, st => if core.debug_update_leds st.tb ≠ 1 then none else some st
  | fuel + 1, st =>
    if core.debug_update_leds st.tb ≠ 1 then
      wait_hc164_reset core d fuel (update_simulation core st d false)
    else some st

/-- The number of states among the first `n + 1` seen by the loop of
`wait_hc164_reset` in which `debug_update_leds` is 1. -/
def valid_indications {HW : Type} (core : Vled_display_controller HW) (st : LedBench HW)
    (d : Digits) (n : Nat) : Nat :=
  ((List.range (n + 1)).filter fun k =>
    decide (core.debug_update_leds (silent_cycles core st d k).tb = 1)).length

end led_display_controller_tb

/-! ## A concrete design for evaluating the benches

The hardware state is a cycle counter. The shift clock is the low bit of the
counter, the data line is high, clear is released, and `debug_update_leds` is
asserted on the cycles 3, 7, 11, ... -/

/-- The display design: counter state, `tick` adds one. -/
def demo_led_core : LedCore Nat where
  tick := fun h => h + 1
  o_shifter_a_cp := fun h => h % 2
  o_shifter_a_ds := fun _ => 1
  o_shifter_a_mr_n := fun _ => 1
  o_shifter_b_cp := fun h => h % 2
  o_shifter_b_ds := fun _ => 1
  o_shifter_b_mr_n := fun _ => 1
  debug_update_leds := fun h => if h % 4 = 3 then 1 else 0

/-- The controller design: as `demo_led_core`, the digit inputs are ignored. -/
def demo_controller : led_display_controller_tb.Vled_display_controller Nat where
  toLedCore := demo_led_core
  set_display := fun h _ _ _ _ => h

/-- The Wishbone design: counter state, `tick` adds one. -/
def demo_wb_core : wb_hc164_tb.Vwb_hc164 Nat where
  tick := fun h => h + 1
  o_shifter_cp := fun h => h % 2
  o_shifter_ds := fun _ => 1
  o_shifter_mr_n := fun _ => 1

/-- A display bench just after construction of the two models. -/
def demo_led_bench : LedBench Nat :=
  { tb := 0, shifter_a := Hc164.new, shifter_b := Hc164.new, printed := [] }

/-- A Wishbone bench just after construction of the model. -/
def demo_wb_bench : wb_hc164_tb.Bench Nat :=
  { tb := 0, device_sim := Hc164.new }

/-- The digits set by `main` of the controller bench. -/
def demo_digits : led_display_controller_tb.Digits :=
  { digit0 := 0xFC, digit1 := 0xB6, digit2 := 0xE0, digit3 := 0xFF }

/-! ## Properties -/

/-! ### Arithmetic of the shift -/

theorem serial_bit_eq (dsa dsb : Nat) :
    serial_bit dsa dsb = (dsa % 2) * (dsb % 2) := by
  unfold serial_bit
  rw [Nat.and_one_is_mod, Nat.and_one_is_mod]
  rcases Nat.mod_two_eq_zero_or_one dsa with ha | ha <;>
    rcases Nat.mod_two_eq_zero_or_one dsb with hb | hb <;>
    rw [ha, hb] <;> decide

theorem serial_bit_le_one (dsa dsb : Nat) : serial_bit dsa dsb ≤ 1 := by
  rw [serial_bit_eq]
  rcases Nat.mod_two_eq_zero_or_one dsa with ha | ha <;>
    rcases Nat.mod_two_eq_zero_or_one dsb with hb | hb <;>
    rw [ha, hb] <;> decide

/-- The register value written on a rising edge, in plain arithmetic. -/
theorem shifted_value_eq (dsa dsb x : Nat) :
    ((((dsa &&& 1) &&& (dsb &&& 1)) <<< 7) % 4294967296 + (x >>> 1)) % 4294967296
      = (serial_bit dsa dsb * 128 + x / 2) % 4294967296 := by
  have h := serial_bit_le_one dsa dsb
  unfold serial_bit at *
  rw [Nat.shiftLeft_eq, Nat.shiftRight_eq_div_pow]
  have h2 : (dsa &&& 1 &&& (dsb &&& 1)) * 2 ^ 7 % 4294967296
      = (dsa &&& 1 &&& (dsb &&& 1)) * 128 := by
    omega
  rw [h2, Nat.pow_one]

/-- On a bit and a seven-bit value the sum is the bitwise OR. -/
theorem shl7_add_eq_or (b y : Nat) (hy : y < 128) :
    (b <<< 7) + y = (b <<< 7) ||| y := by
  rw [Nat.shiftLeft_eq, Nat.mul_comm]
  exact Nat.mul_add_lt_is_or (by simpa using hy) b

/-! ### Unfolding `update` by case -/

theorem update_clear (s : Hc164) (cp dsa dsb : Nat) :
    update s cp dsa dsb 0 = { output_signals := 0, previous_cp := cp } := by
  simp [update, init_hc164]

theorem update_edge (s : Hc164) (dsa dsb mr : Nat) (hmr : mr ≠ 0)
    (hprev : s.previous_cp = 0) :
    update s 1 dsa dsb mr =
      { output_signals := (serial_bit dsa dsb * 128 + s.output_signals / 2) % 4294967296,
        previous_cp := 1 } := by
  simp only [update, hmr, hprev, if_false, and_self, if_true, shifted_value_eq]

theorem update_no_edge (s : Hc164) (cp dsa dsb mr : Nat) (hmr : mr ≠ 0)
    (hne : ¬ (s.previous_cp = 0 ∧ cp = 1)) :
    update s cp dsa dsb mr = { s with previous_cp := cp } := by
  simp only [update, hmr, hne, if_false]

theorem update_previous_cp (s : Hc164) (cp dsa dsb mr : Nat) :
    (update s cp dsa dsb mr).previous_cp = cp := by
  simp [update]


theorem run_nil (s : Hc164) : run s [] = s := rfl

theorem run_cons (s : Hc164) (p : Pins) (l : List Pins) :
    run s (p :: l) = run (step s p) l := rfl

theorem run_append (s : Hc164) (l₁ l₂ : List Pins) :
    run s (l₁ ++ l₂) = run (run s l₁) l₂ := by
  simp [run, List.foldl_append]

/-! ## The reference model -/

/-- C1: with `master_clear = 0` the call of `update` leaves `output_signals`
at 0 for every state and every clock and data value, also on the state that a
rising-edge call (a shift) has just produced. -/
theorem update_clear_zeroes_register (s : Hc164) (cp dsa dsb : Nat) :
    (update s cp dsa dsb 0).output_signals = 0 ∧
    ∀ dsa' dsb' : Nat,
      (update (update { s with previous_cp := 0 } 1 dsa' dsb' 1) cp dsa dsb 0).output_signals
        = 0 := by
  refine ⟨?_, fun dsa' dsb' => ?_⟩ <;> rw [update_clear]

/-- C2: on a state with an eight-bit register and `previous_cp = 0`, the call
`update(1, dsa, dsb, 1)` stores `(new_bit << 7) | (output_signals >> 1)` with
`new_bit = (dsa & 1) & (dsb & 1)`, for all data values; and `update(0,1,1,1)`
followed by `update(1,1,1,1)` on a new model gives `0x80`. -/
theorem update_rising_edge_shifts :
    (∀ (s : Hc164) (dsa dsb : Nat), s.output_signals < 256 → s.previous_cp = 0 →
      (update s 1 dsa dsb 1).output_signals
        = ((((dsa &&& 1) &&& (dsb &&& 1)) <<< 7) ||| (s.output_signals >>> 1))) ∧
    (update (update Hc164.new 0 1 1 1) 1 1 1 1).output_signals = 0x80 := by
  refine ⟨fun s dsa dsb hx hprev => ?_, by decide⟩
  rw [update_edge s dsa dsb 1 (by decide) hprev]
  have hb := serial_bit_le_one dsa dsb
  have hy : s.output_signals >>> 1 < 128 := by
    rw [Nat.shiftRight_eq_div_pow]; omega
  rw [← shl7_add_eq_or _ _ hy, Nat.shiftLeft_eq, Nat.shiftRight_eq_div_pow]
  show (serial_bit dsa dsb * 128 + s.output_signals / 2) % 4294967296
    = serial_bit dsa dsb * 2 ^ 7 + s.output_signals / 2 ^ 1
  omega

/-- Witness of C2: the state `0xFF` with the clock low, data lines 3 and 5. -/
theorem update_rising_edge_shifts_witness :
    (update { output_signals := 0xFF, previous_cp := 0 } 1 3 5 1).output_signals
      = ((((3 &&& 1) &&& (5 &&& 1)) <<< 7) ||| (0xFF >>> 1)) :=
  update_rising_edge_shifts.1 { output_signals := 0xFF, previous_cp := 0 } 3 5
    (by decide) rfl

theorem step_no_edge_output (s : Hc164) (p : Pins) (hmr : p.mr = 1)
    (hne : is_rising_edge s p.cp = false) :
    (step s p).output_signals = s.output_signals := by
  have h : ¬ (s.previous_cp = 0 ∧ p.cp = 1) := by
    simpa [is_rising_edge] using hne
  rw [step, update_no_edge s p.cp p.dsa p.dsb p.mr (by omega) h]

/-- C3: a finite sequence of `update` calls with `master_clear = 1`, none of
which is a rising edge (`previous_cp == 0 && cp == 1` holds at no call), leaves
`output_signals` as it was, whatever the data values and the length. -/
theorem run_without_edge_keeps_register (s : Hc164) (l : List Pins)
    (hmr : ∀ p ∈ l, p.mr = 1) (hedge : no_rising_edge s l = true) :
    (run s l).output_signals = s.output_signals := by
  induction l generalizing s with
  | nil => rfl
  | cons p ps ih =>
    rw [no_rising_edge, Bool.and_eq_true, Bool.not_eq_true'] at hedge
    rw [run_cons, ih (step s p) (fun q hq => hmr q (List.mem_cons_of_mem p hq)) hedge.2]
    exact step_no_edge_output s p (hmr p (List.mem_cons_self p ps)) hedge.1

/-- Witness of C3: from `0x80` with the clock high, `update(1,0,0,1)`, a
falling clock and a low clock leave `0x80`. -/
theorem run_without_edge_keeps_register_witness :
    (run { output_signals := 0x80, previous_cp := 1 }
      [{ cp := 1, dsa := 0, dsb := 0, mr := 1 }, { cp := 0, dsa := 1, dsb := 1, mr := 1 },
       { cp := 0, dsa := 1, dsb := 0, mr := 1 }]).output_signals = 0x80 :=
  run_without_edge_keeps_register { output_signals := 0x80, previous_cp := 1 }
    [{ cp := 1, dsa := 0, dsb := 0, mr := 1 }, { cp := 0, dsa := 1, dsb := 1, mr := 1 },
     { cp := 0, dsa := 1, dsb := 0, mr := 1 }]
    (by decide) (by decide)

/-- C5: after `update(cp, dsa, dsb, mr)` the field `previous_cp` is `cp`, also
when `mr = 0`; the state after the call consists of the new `output_signals`
and `cp` alone; and a clear issued with the clock low is followed by a shift
on the next call with `cp = 1` and `mr = 1`. -/
theorem update_tracks_clock (s : Hc164) (cp dsa dsb mr : Nat) :
    (update s cp dsa dsb mr).previous_cp = cp ∧
    (update s cp dsa dsb 0).previous_cp = cp ∧
    update s cp dsa dsb mr
      = { output_signals := (update s cp dsa dsb mr).output_signals, previous_cp := cp } ∧
    update (update s 0 dsa dsb 0) 1 dsa dsb 1
      = { output_signals := ((dsa &&& 1) &&& (dsb &&& 1)) <<< 7, previous_cp := 1 } := by
  refine ⟨update_previous_cp _ _ _ _ _, update_previous_cp _ _ _ _ _, ?_, ?_⟩
  · simp [update]
  · rw [update_clear, update_edge _ dsa dsb 1 (by decide) rfl]
    have hb := serial_bit_le_one dsa dsb
    rw [Nat.shiftLeft_eq]
    show Hc164.mk ((serial_bit dsa dsb * 128 + 0 / 2) % 4294967296) 1
      = Hc164.mk (serial_bit dsa dsb * 2 ^ 7) 1
    congr 1
    omega

/-- C6, as stated, fails: a clear with the clock high leaves `previous_cp = 1`,
which is not the state that `init_hc164` produces. -/
theorem update_clear_differs_from_init :
    (update Hc164.new 1 0 0 0).previous_cp = 1 ∧
    (init_hc164 Hc164.new).previous_cp = 0 ∧
    update Hc164.new 1 0 0 0 ≠ init_hc164 Hc164.new := by
  decide

/-- C6, amended: `init_hc164` sets both fields to 0, and `update` with
`master_clear = 0` leaves the state that `init_hc164` produces except that
`previous_cp` holds the clock argument; the two states are equal exactly when
the clock argument is 0. -/
theorem update_clear_is_init_up_to_clock (s : Hc164) (cp dsa dsb : Nat) :
    init_hc164 s = { output_signals := 0, previous_cp := 0 } ∧
    Hc164.new = { output_signals := 0, previous_cp := 0 } ∧
    update s cp dsa dsb 0 = { init_hc164 s with previous_cp := cp } ∧
    (update s cp dsa dsb 0 = init_hc164 s ↔ cp = 0) := by
  refine ⟨rfl, rfl, ?_, ?_⟩
  · rw [update_clear]; rfl
  · rw [update_clear]
    simp [init_hc164]

/-- The invariant of the reachable states: an eight-bit register and a one-bit
clock level. -/
theorem step_keeps_widths (s : Hc164) (p : Pins) (hcp : p.cp = 0 ∨ p.cp = 1)
    (h : s.output_signals < 256 ∧ s.previous_cp ≤ 1) :
    (step s p).output_signals < 256 ∧ (step s p).previous_cp ≤ 1 := by
  have hprev : (step s p).previous_cp = p.cp := update_previous_cp _ _ _ _ _
  refine ⟨?_, by omega⟩
  unfold step
  by_cases hmr : p.mr = 0
  · rw [hmr, update_clear]
    show 0 < 256
    omega
  · by_cases he : s.previous_cp = 0 ∧ p.cp = 1
    · rw [he.2, update_edge s p.dsa p.dsb p.mr hmr he.1]
      have hb := serial_bit_le_one p.dsa p.dsb
      show (serial_bit p.dsa p.dsb * 128 + s.output_signals / 2) % 4294967296 < 256
      omega
    · rw [update_no_edge s p.cp p.dsa p.dsb p.mr hmr he]
      exact h.1

theorem run_keeps_widths (s : Hc164) (l : List Pins)
    (hcp : ∀ p ∈ l, p.cp = 0 ∨ p.cp = 1)
    (h : s.output_signals < 256 ∧ s.previous_cp ≤ 1) :
    (run s l).output_signals < 256 ∧ (run s l).previous_cp ≤ 1 := by
  induction l generalizing s with
  | nil => exact h
  | cons p ps ih =>
    rw [run_cons]
    exact ih (step s p) (fun q hq => hcp q (List.mem_cons_of_mem p hq))
      (step_keeps_widths s p (hcp p (List.mem_cons_self p ps)) h)

/-- C10: from a new model, after every finite sequence of `update` calls whose
clock and `master_clear` arguments are 0 or 1 (the data arguments are
arbitrary), `output_signals` is below 256 and `previous_cp` is 0 or 1; hence in
the next call the sum `ds + (output_signals >> 1)` stays below 256 (no carry,
no wrap of the `unsigned` addition) and equals the bitwise OR. -/
theorem reachable_register_is_eight_bit (l : List Pins)
    (hcp : ∀ p ∈ l, (p.cp = 0 ∨ p.cp = 1) ∧ (p.mr = 0 ∨ p.mr = 1)) :
    (run Hc164.new l).output_signals < 256 ∧
    ((run Hc164.new l).previous_cp = 0 ∨ (run Hc164.new l).previous_cp = 1) ∧
    ∀ dsa dsb : Nat,
      (((dsa &&& 1) &&& (dsb &&& 1)) <<< 7) + ((run Hc164.new l).output_signals >>> 1) < 256 ∧
      (((dsa &&& 1) &&& (dsb &&& 1)) <<< 7) + ((run Hc164.new l).output_signals >>> 1)
        = ((((dsa &&& 1) &&& (dsb &&& 1)) <<< 7) ||| ((run Hc164.new l).output_signals >>> 1)) := by
  have h := run_keeps_widths Hc164.new l (fun p hp => (hcp p hp).1)
    ⟨by decide, by decide⟩
  have hy : (run Hc164.new l).output_signals >>> 1 < 128 := by
    rw [Nat.shiftRight_eq_div_pow]; omega
  refine ⟨h.1, by omega, fun dsa dsb => ⟨?_, shl7_add_eq_or _ _ hy⟩⟩
  have hb := serial_bit_le_one dsa dsb
  unfold serial_bit at hb
  rw [Nat.shiftLeft_eq]
  omega

/-- Witness of C10: a clear, two rising edges with wide data values and a
falling clock. -/
theorem reachable_register_is_eight_bit_witness :
    (run Hc164.new [{ cp := 1, dsa := 7, dsb := 9, mr := 0 },
      { cp := 0, dsa := 7, dsb := 9, mr := 1 }, { cp := 1, dsa := 7, dsb := 9, mr := 1 },
      { cp := 0, dsa := 0, dsb := 0, mr := 1 },
      { cp := 1, dsa := 4294967295, dsb := 255, mr := 1 }]).output_signals < 256 :=
  (reachable_register_is_eight_bit [{ cp := 1, dsa := 7, dsb := 9, mr := 0 },
      { cp := 0, dsa := 7, dsb := 9, mr := 1 }, { cp := 1, dsa := 7, dsb := 9, mr := 1 },
      { cp := 0, dsa := 0, dsb := 0, mr := 1 },
      { cp := 1, dsa := 4294967295, dsb := 255, mr := 1 }] (by decide)).1

theorem run_rising_edge_cycle (s : Hc164) (lo hi : Nat × Nat) :
    run s (rising_edge_cycle lo hi) =
      { output_signals := (serial_bit hi.1 hi.2 * 128 + s.output_signals / 2) % 4294967296,
        previous_cp := 1 } := by
  have h0 : step s { cp := 0, dsa := lo.1, dsb := lo.2, mr := 1 }
      = { s with previous_cp := 0 } :=
    update_no_edge s 0 lo.1 lo.2 1 (by decide) (by simp)
  rw [rising_edge_cycle, run_cons, run_cons, run_nil, h0]
  exact update_edge _ hi.1 hi.2 1 (by decide) rfl

/-- C4: from a state with an eight-bit register, after eight consecutive
rising-edge cycles with `master_clear = 1` (each an `update` with the clock low
and then one with the clock high whose data lines carry the serial bit `b i`,
`b 0` first), `output_signals` is the byte `b 0 + 2 * b 1 + ... + 128 * b 7`,
whose bit `i` is `b i`; the starting register does not occur in it. -/
theorem eight_cycles_load_byte (s : Hc164) (lo hi : Fin 8 → Nat × Nat)
    (h : s.output_signals < 256) :
    (run s (eight_cycles lo hi)).output_signals
      = serial_bit (hi 0).1 (hi 0).2 * 1 + serial_bit (hi 1).1 (hi 1).2 * 2
        + serial_bit (hi 2).1 (hi 2).2 * 4 + serial_bit (hi 3).1 (hi 3).2 * 8
        + serial_bit (hi 4).1 (hi 4).2 * 16 + serial_bit (hi 5).1 (hi 5).2 * 32
        + serial_bit (hi 6).1 (hi 6).2 * 64 + serial_bit (hi 7).1 (hi 7).2 * 128 ∧
    ∀ i : Fin 8, Nat.testBit (run s (eight_cycles lo hi)).output_signals i
      = decide (serial_bit (hi i).1 (hi i).2 = 1) := by
  have h0 := serial_bit_le_one (hi 0).1 (hi 0).2
  have h1 := serial_bit_le_one (hi 1).1 (hi 1).2
  have h2 := serial_bit_le_one (hi 2).1 (hi 2).2
  have h3 := serial_bit_le_one (hi 3).1 (hi 3).2
  have h4 := serial_bit_le_one (hi 4).1 (hi 4).2
  have h5 := serial_bit_le_one (hi 5).1 (hi 5).2
  have h6 := serial_bit_le_one (hi 6).1 (hi 6).2
  have h7 := serial_bit_le_one (hi 7).1 (hi 7).2
  have hval : (run s (eight_cycles lo hi)).output_signals
      = serial_bit (hi 0).1 (hi 0).2 * 1 + serial_bit (hi 1).1 (hi 1).2 * 2
        + serial_bit (hi 2).1 (hi 2).2 * 4 + serial_bit (hi 3).1 (hi 3).2 * 8
        + serial_bit (hi 4).1 (hi 4).2 * 16 + serial_bit (hi 5).1 (hi 5).2 * 32
        + serial_bit (hi 6).1 (hi 6).2 * 64 + serial_bit (hi 7).1 (hi 7).2 * 128 := by
    simp only [eight_cycles, run_append, run_rising_edge_cycle]
    omega
  refine ⟨hval, ?_⟩
  rw [hval]
  have bit : ∀ (v k b : Nat), b ≤ 1 → v / 2 ^ k % 2 = b →
      Nat.testBit v k = decide (b = 1) := by
    intro v k b hb hv
    rw [Nat.testBit_to_div_mod, hv]
  intro i
  fin_cases i
  · exact bit _ 0 (serial_bit (hi 0).1 (hi 0).2) h0 (by norm_num; omega)
  · exact bit _ 1 (serial_bit (hi 1).1 (hi 1).2) h1 (by norm_num; omega)
  · exact bit _ 2 (serial_bit (hi 2).1 (hi 2).2) h2 (by norm_num; omega)
  · exact bit _ 3 (serial_bit (hi 3).1 (hi 3).2) h3 (by norm_num; omega)
  · exact bit _ 4 (serial_bit (hi 4).1 (hi 4).2) h4 (by norm_num; omega)
  · exact bit _ 5 (serial_bit (hi 5).1 (hi 5).2) h5 (by norm_num; omega)
  · exact bit _ 6 (serial_bit (hi 6).1 (hi 6).2) h6 (by norm_num; omega)
  · exact bit _ 7 (serial_bit (hi 7).1 (hi 7).2) h7 (by norm_num; omega)

/-- Witness of C4: a register full of ones, data lines wider than one bit. -/
theorem eight_cycles_load_byte_witness :
    (run { output_signals := 0xFF, previous_cp := 1 }
      (eight_cycles (fun _ => (1, 1)) (fun i => (i.val % 2 + 2, 7)))).output_signals
      = 0 * 1 + 1 * 2 + 0 * 4 + 1 * 8 + 0 * 16 + 1 * 32 + 0 * 64 + 1 * 128 :=
  (eight_cycles_load_byte { output_signals := 0xFF, previous_cp := 1 }
    (fun _ => (1, 1)) (fun i => (i.val % 2 + 2, 7)) (by decide)).1

/-- C7, as stated, fails: clocking the bits of `0xB6` in from bit 7 down to
bit 0 into a new model leaves `0x6D`, the byte with the bits reversed, and the
comparison of `send_data` against `0xB6` does not pass. -/
theorem inject_msb_first_reverses_byte :
    bits_msb_first 0xB6 = [true, false, true, true, false, true, true, false] ∧
    (run Hc164.new (inject_bits (bits_msb_first 0xB6))).output_signals = 0x6D ∧
    (run Hc164.new (inject_bits (bits_msb_first 0xB6))).output_signals ≠ 0xB6 ∧
    wb_hc164_tb.send_data_accepts 0xB6
      (run Hc164.new (inject_bits (bits_msb_first 0xB6))) = false := by
  decide

/-- C7, amended: clocking the bits of `0xB6` into a new model from bit 0 up to
bit 7 (bit 0 on the first rising edge, bit 7 on the eighth), with
`master_clear = 1` throughout, leaves `output_signals = 0xB6`, and the
comparison of `send_data` against the sent byte `0xB6` passes. -/
theorem inject_lsb_first_loads_byte :
    bits_lsb_first 0xB6 = [false, true, true, false, true, true, false, true] ∧
    (∀ p ∈ inject_bits (bits_lsb_first 0xB6), p.mr = 1) ∧
    (run Hc164.new (inject_bits (bits_lsb_first 0xB6))).output_signals = 0xB6 ∧
    wb_hc164_tb.send_data_accepts 0xB6
      (run Hc164.new (inject_bits (bits_lsb_first 0xB6))) = true := by
  decide

/-! ## The benches -/

namespace led_display_counter_tb

theorem counter_silent_cycles_succ {HW : Type} (core : LedCore HW) (st : LedBench HW) (n : Nat) :
    silent_cycles core st (n + 1) = silent_cycles core (update_simulation core st false) n :=
  rfl

theorem counter_silent_cycles_printed {HW : Type} (core : LedCore HW) (st : LedBench HW) (n : Nat) :
    (silent_cycles core st n).printed = st.printed := by
  induction n generalizing st with
  | zero => rfl
  | succ n ih =>
    rw [counter_silent_cycles_succ, ih]
    simp [update_simulation, sample_and_print]

theorem counter_wait_returns_first {HW : Type} (core : LedCore HW) (n : Nat) :
    ∀ (st : LedBench HW) (fuel : Nat),
      core.debug_update_leds (silent_cycles core st n).tb = 1 →
      (∀ k, k < n → core.debug_update_leds (silent_cycles core st k).tb ≠ 1) →
      n ≤ fuel → wait_hc164_reset core fuel st = some (silent_cycles core st n) := by
  induction n with
  | zero =>
    intro st fuel h _ _
    have h0 : core.debug_update_leds st.tb = 1 := h
    cases fuel <;> simp [wait_hc164_reset, h0, silent_cycles]
  | succ n ih =>
    intro st fuel h hfirst hfuel
    have h0 : core.debug_update_leds st.tb ≠ 1 := hfirst 0 (Nat.succ_pos n)
    obtain ⟨f, rfl⟩ : ∃ f, fuel = f + 1 := ⟨fuel - 1, by omega⟩
    rw [wait_hc164_reset, if_pos h0, counter_silent_cycles_succ]
    exact ih (update_simulation core st false) f h
      (fun k hk => hfirst (k + 1) (by omega)) (by omega)

theorem counter_valid_indications_first {HW : Type} (core : LedCore HW) (st : LedBench HW) (n : Nat)
    (h : core.debug_update_leds (silent_cycles core st n).tb = 1)
    (hfirst : ∀ k, k < n → core.debug_update_leds (silent_cycles core st k).tb ≠ 1) :
    valid_indications core st n = 1 := by
  unfold valid_indications
  rw [List.range_succ, List.filter_append]
  have hnone : (List.range n).filter (fun k =>
      decide (core.debug_update_leds (silent_cycles core st k).tb = 1)) = [] := by
    rw [List.filter_eq_nil_iff]
    intro k hk
    simpa using hfirst k (List.mem_range.mp hk)
  rw [hnone]
  simp [h]

end led_display_counter_tb

namespace led_display_controller_tb

theorem controller_silent_cycles_succ {HW : Type} (core : Vled_display_controller HW)
    (st : LedBench HW) (d : Digits) (n : Nat) :
    silent_cycles core st d (n + 1)
      = silent_cycles core (update_simulation core st d false) d n :=
  rfl

theorem controller_silent_cycles_printed {HW : Type} (core : Vled_display_controller HW)
    (st : LedBench HW) (d : Digits) (n : Nat) :
    (silent_cycles core st d n).printed = st.printed := by
  induction n generalizing st with
  | zero => rfl
  | succ n ih =>
    rw [controller_silent_cycles_succ, ih]
    simp [update_simulation, sample_and_print]

theorem controller_wait_returns_first {HW : Type} (core : Vled_display_controller HW) (d : Digits)
    (n : Nat) :
    ∀ (st : LedBench HW) (fuel : Nat),
      core.debug_update_leds (silent_cycles core st d n).tb = 1 →
      (∀ k, k < n → core.debug_update_leds (silent_cycles core st d k).tb ≠ 1) →
      n ≤ fuel → wait_hc164_reset core d fuel st = some (silent_cycles core st d n) := by
  induction n with
  | zero =>
    intro st fuel h _ _
    have h0 : core.debug_update_leds st.tb = 1 := h
    cases fuel <;> simp [wait_hc164_reset, h0, silent_cycles]
  | succ n ih =>
    intro st fuel h hfirst hfuel
    have h0 : core.debug_update_leds st.tb ≠ 1 := hfirst 0 (Nat.succ_pos n)
    obtain ⟨f, rfl⟩ : ∃ f, fuel = f + 1 := ⟨fuel - 1, by omega⟩
    rw [wait_hc164_reset, if_pos h0, controller_silent_cycles_succ]
    exact ih (update_simulation core st d false) f h
      (fun k hk => hfirst (k + 1) (by omega)) (by omega)

theorem controller_valid_indications_first {HW : Type} (core : Vled_display_controller HW)
    (st : LedBench HW) (d : Digits) (n : Nat)
    (h : core.debug_update_leds (silent_cycles core st d n).tb = 1)
    (hfirst : ∀ k, k < n → core.debug_update_leds (silent_cycles core st d k).tb ≠ 1) :
    valid_indications core st d n = 1 := by
  unfold valid_indications
  rw [List.range_succ, List.filter_append]
  have hnone : (List.range n).filter (fun k =>
      decide (core.debug_update_leds (silent_cycles core st d k).tb = 1)) = [] := by
    rw [List.filter_eq_nil_iff]
    intro k hk
    simpa using hfirst k (List.mem_range.mp hk)
  rw [hnone]
  simp [h]

end led_display_controller_tb

/-- C8, as stated, fails: on the design whose indicator is asserted on the
cycles 3, 7, 11, ... both `wait_hc164_reset` loops return after three cycles,
at the first state in which `debug_update_leds` is 1, having seen one valid
indication and not two; the second indication (cycle 7) is not waited for. -/
theorem wait_hc164_reset_stops_at_first_indication :
    ((led_display_counter_tb.wait_hc164_reset demo_led_core 10 demo_led_bench).map
      fun st => st.tb) = some 3 ∧
    ((led_display_controller_tb.wait_hc164_reset demo_controller demo_digits 10
      demo_led_bench).map fun st => st.tb) = some 3 ∧
    (List.range 8).map demo_led_core.debug_update_leds = [0, 0, 0, 1, 0, 0, 0, 1] ∧
    led_display_counter_tb.valid_indications demo_led_core demo_led_bench 3 = 1 ∧
    led_display_controller_tb.valid_indications demo_controller demo_led_bench
      demo_digits 3 = 1 := by
  decide

/-- C8, amended: in both display benches `wait_hc164_reset` returns at the
first state, counted from the state on entry, in which `debug_update_leds` is
1: if that is the state after `n` cycles, then with fuel for `n` cycles the
loop returns exactly that state, nothing has been printed during the wait (the
cycles run with `print_leds = false`), and one valid indication has been
seen. -/
theorem wait_hc164_reset_returns_at_first_indication {HW : Type}
    (core : LedCore HW) (ctl : led_display_controller_tb.Vled_display_controller HW)
    (d : led_display_controller_tb.Digits) (st : LedBench HW) (n fuel : Nat) :
    (core.debug_update_leds (led_display_counter_tb.silent_cycles core st n).tb = 1 →
      (∀ k, k < n →
        core.debug_update_leds (led_display_counter_tb.silent_cycles core st k).tb ≠ 1) →
      n ≤ fuel →
        led_display_counter_tb.wait_hc164_reset core fuel st
          = some (led_display_counter_tb.silent_cycles core st n) ∧
        (led_display_counter_tb.silent_cycles core st n).printed = st.printed ∧
        led_display_counter_tb.valid_indications core st n = 1) ∧
    (ctl.debug_update_leds (led_display_controller_tb.silent_cycles ctl st d n).tb = 1 →
      (∀ k, k < n →
        ctl.debug_update_leds (led_display_controller_tb.silent_cycles ctl st d k).tb ≠ 1) →
      n ≤ fuel →
        led_display_controller_tb.wait_hc164_reset ctl d fuel st
          = some (led_display_controller_tb.silent_cycles ctl st d n) ∧
        (led_display_controller_tb.silent_cycles ctl st d n).printed = st.printed ∧
        led_display_controller_tb.valid_indications ctl st d n = 1) := by
  constructor
  · intro h hfirst hfuel
    exact ⟨led_display_counter_tb.counter_wait_returns_first core n st fuel h hfirst hfuel,
      led_display_counter_tb.counter_silent_cycles_printed core st n,
      led_display_counter_tb.counter_valid_indications_first core st n h hfirst⟩
  · intro h hfirst hfuel
    exact ⟨led_display_controller_tb.controller_wait_returns_first ctl d n st fuel h hfirst hfuel,
      led_display_controller_tb.controller_silent_cycles_printed ctl st d n,
      led_display_controller_tb.controller_valid_indications_first ctl st d n h hfirst⟩

/-- Witness of C8: the counter bench on the design whose indicator is first
asserted in the state after three cycles, with fuel for ten. -/
theorem wait_hc164_reset_returns_at_first_indication_witness :
    led_display_counter_tb.wait_hc164_reset demo_led_core 10 demo_led_bench
      = some (led_display_counter_tb.silent_cycles demo_led_core demo_led_bench 3) ∧
    (led_display_counter_tb.silent_cycles demo_led_core demo_led_bench 3).printed
      = demo_led_bench.printed ∧
    led_display_counter_tb.valid_indications demo_led_core demo_led_bench 3 = 1 :=
  (wait_hc164_reset_returns_at_first_indication demo_led_core demo_controller demo_digits
    demo_led_bench 3 10).1 (by decide) (by decide) (by decide)

/-- The display benches sample after the tick: one `update_simulation` of the
counter bench evaluates one cycle and then feeds both models the pins of the
state that the evaluation produced. -/
theorem counter_update_simulation_samples_after_tick {HW : Type} (core : LedCore HW)
    (st : LedBench HW) (print_leds : Bool) :
    (led_display_counter_tb.update_simulation core st print_leds).tb = core.tick st.tb ∧
    (led_display_counter_tb.update_simulation core st print_leds).shifter_a
      = update st.shifter_a (core.o_shifter_a_cp (core.tick st.tb))
          (core.o_shifter_a_ds (core.tick st.tb)) (core.o_shifter_a_ds (core.tick st.tb))
          (core.o_shifter_a_mr_n (core.tick st.tb)) ∧
    (led_display_counter_tb.update_simulation core st print_leds).shifter_b
      = update st.shifter_b (core.o_shifter_b_cp (core.tick st.tb))
          (core.o_shifter_b_ds (core.tick st.tb)) (core.o_shifter_b_ds (core.tick st.tb))
          (core.o_shifter_b_mr_n (core.tick st.tb)) :=
  ⟨rfl, rfl, rfl⟩

/-- The controller bench does the same, the digit inputs being written before
the tick. -/
theorem controller_update_simulation_samples_after_tick {HW : Type}
    (core : led_display_controller_tb.Vled_display_controller HW) (st : LedBench HW)
    (d : led_display_controller_tb.Digits) (print_leds : Bool) :
    (led_display_controller_tb.update_simulation core st d print_leds).tb
      = core.tick (core.set_display st.tb d.digit0 d.digit1 d.digit2 d.digit3) ∧
    (led_display_controller_tb.update_simulation core st d print_leds).shifter_a
      = update st.shifter_a
          (core.o_shifter_a_cp
            (led_display_controller_tb.update_simulation core st d print_leds).tb)
          (core.o_shifter_a_ds
            (led_display_controller_tb.update_simulation core st d print_leds).tb)
          (core.o_shifter_a_ds
            (led_display_controller_tb.update_simulation core st d print_leds).tb)
          (core.o_shifter_a_mr_n
            (led_display_controller_tb.update_simulation core st d print_leds).tb) ∧
    (led_display_controller_tb.update_simulation core st d print_leds).shifter_b
      = update st.shifter_b
          (core.o_shifter_b_cp
            (led_display_controller_tb.update_simulation core st d print_leds).tb)
          (core.o_shifter_b_ds
            (led_display_controller_tb.update_simulation core st d print_leds).tb)
          (core.o_shifter_b_ds
            (led_display_controller_tb.update_simulation core st d print_leds).tb)
          (core.o_shifter_b_mr_n
            (led_display_controller_tb.update_simulation core st d print_leds).tb) :=
  ⟨rfl, rfl, rfl⟩

/-- The Wishbone bench samples before the tick: the model is fed the pins of
the state on entry, and the cycle is evaluated afterwards. -/
theorem wb_update_simulation_samples_before_tick {HW : Type}
    (core : wb_hc164_tb.Vwb_hc164 HW) (st : wb_hc164_tb.Bench HW) :
    (wb_hc164_tb.update_simulation core st).tb = core.tick st.tb ∧
    (wb_hc164_tb.update_simulation core st).device_sim
      = update st.device_sim (core.o_shifter_cp st.tb) (core.o_shifter_ds st.tb)
          (core.o_shifter_ds st.tb) (core.o_shifter_mr_n st.tb) :=
  ⟨rfl, rfl⟩

/-- C9 at a failing input: on the design whose shift clock is the low bit of
the cycle counter, one `update_simulation` of the Wishbone bench from cycle 0
feeds the model the pins of the state before the evaluation (clock 0, no
shift, register 0) and not those of the state after it (clock 1, which shifts
`0x80` in); the counter bench on the same pins feeds the state after it. -/
theorem wb_update_simulation_lags_one_cycle :
    (wb_hc164_tb.update_simulation demo_wb_core demo_wb_bench).tb = 1 ∧
    (wb_hc164_tb.update_simulation demo_wb_core demo_wb_bench).device_sim
      = update Hc164.new (demo_wb_core.o_shifter_cp 0) (demo_wb_core.o_shifter_ds 0)
          (demo_wb_core.o_shifter_ds 0) (demo_wb_core.o_shifter_mr_n 0) ∧
    (wb_hc164_tb.update_simulation demo_wb_core demo_wb_bench).device_sim
      ≠ update Hc164.new (demo_wb_core.o_shifter_cp 1) (demo_wb_core.o_shifter_ds 1)
          (demo_wb_core.o_shifter_ds 1) (demo_wb_core.o_shifter_mr_n 1) ∧
    (wb_hc164_tb.update_simulation demo_wb_core demo_wb_bench).device_sim.output_signals
      = 0 ∧
    (update Hc164.new (demo_wb_core.o_shifter_cp 1) (demo_wb_core.o_shifter_ds 1)
      (demo_wb_core.o_shifter_ds 1) (demo_wb_core.o_shifter_mr_n 1)).output_signals
      = 0x80 ∧
    (led_display_counter_tb.update_simulation demo_led_core demo_led_bench
      true).shifter_a.output_signals = 0x80 ∧
    (wb_hc164_tb.wait_clocks demo_wb_core demo_wb_bench 3).device_sim.output_signals
      = 0x80 ∧
    (led_display_counter_tb.wait_clocks demo_led_core demo_led_bench
      3).shifter_a.output_signals = 0xC0 := by
  decide

end Hc164Model
